import Mathlib

/-!
# Verification of the Request Runner component (`src/src/components/ApiTester.tsx`)

This file is a shallow embedding, in Lean 4, of the logic of the single React
component `ApiTester`.  The pure helpers of the component (`formatJson`,
`getStatusColor`) become Lean functions; the stateful `makeRequest` handler
becomes an explicit state-transformation function whose platform effects
(`JSON.parse`, `fetch`, `performance.now`, `toast`) are modelled as explicit
inputs and outputs:

* `JSON.parse` on the headers text is an input `jsonParse : String → Option Json`
  (`none` = the parse threw, `some v` = it returned the JS value `v`);
* the outcome of the `fetch` call is an input `TransportOutcome` (resolved response
  or thrown error), and whether/with what arguments `fetch` would be invoked is
  an output (`transportCalled`);
* `performance.now()` readings are rational inputs `tStart`, `tEnd`;
* `toast` invocations are collected as an output list of toast titles.

JS strings are Lean `String`s, JS numbers in the positions the claims touch
(status codes, timings) are integers (`Int`), with `Math.round` embedded as
`jsRound` over `ℚ`.  JSON values are the inductive `Json` (numbers as `Int`,
which covers every value the theorems below evaluate).
-/

namespace ApiTester

/-- A JS value produced by `JSON.parse` / consumed by `JSON.stringify`:
null, booleans, numbers, strings, arrays, objects. -/
inductive Json where
  | null
  | bool (b : Bool)
  | num (n : Int)
  | str (s : String)
  | arr (elems : List Json)
  | obj (members : List (String × Json))

/-! ## `String.prototype.includes` (used at lines 79, 114, 312 of the source) -/

/-- `leadsWith needle hay`: `hay` starts with `needle` (character lists). -/
def leadsWith : List Char → List Char → Bool
  | [], _ => true
  | _ :: _, [] => false
  | a :: as, b :: bs => a == b && leadsWith as bs

/-- `listHasSub needle hay`: `needle` occurs contiguously somewhere in `hay`
(the semantics of JS `hay.includes(needle)` on character lists). -/
def listHasSub (needle : List Char) : List Char → Bool
  | [] => needle.isEmpty
  | c :: rest => leadsWith needle (c :: rest) || listHasSub needle rest

/-- JS `s.includes(sub)`. -/
def jsIncludes (s sub : String) : Bool :=
  listHasSub sub.data s.data

/-! ## `String.prototype.trim` (used at lines 33 and 65 of the source) -/

/-- The characters JS `trim` strips: ECMAScript WhiteSpace (tab, VT, FF,
space, NBSP, BOM and the Unicode space separators) and LineTerminator (LF,
CR, LS, PS). -/
def isJsWs (c : Char) : Bool :=
  c == '\x09' || c == '\x0a' || c == '\x0b' || c == '\x0c' || c == '\x0d' ||
  c == ' ' || c == '\xa0' || c == '\u1680' ||
  ('\u2000' ≤ c && c ≤ '\u200a') ||
  c == '\u2028' || c == '\u2029' || c == '\u202f' || c == '\u205f' ||
  c == '\u3000' || c == '\ufeff'

/-- JS `s.trim()`: strip leading and trailing whitespace. -/
def jsTrim (s : String) : String :=
  String.mk (((s.data.dropWhile isJsWs).reverse.dropWhile isJsWs).reverse)

/-! ## `formatJson` (source lines 131–137): `JSON.stringify(obj, null, 2)`

`JSON.stringify(v, null, 2)` pretty-prints with a two-space gap.  The
`try/catch` in `formatJson` only catches exceptions from cyclic values, which
the inductive `Json` cannot represent, so the embedding is the serializer
itself. -/

/-- One hexadecimal digit (lowercase), as emitted by `JSON.stringify` in
`\u00xx` escapes. -/
def hexDigit (n : Nat) : Char :=
  if n < 10 then Char.ofNat ('0'.toNat + n) else Char.ofNat ('a'.toNat + (n - 10))

/-- Four-digit lowercase hex, for `\uXXXX` escapes. -/
def hex4 (n : Nat) : List Char :=
  [hexDigit (n / 4096 % 16), hexDigit (n / 256 % 16), hexDigit (n / 16 % 16),
   hexDigit (n % 16)]

/-- Escaping of a single character inside a JSON string literal, as
the `QuoteJSONString` step of `JSON.stringify` does it: `"` and `\` are backslash-escaped,
the named control characters get their short escapes, other control characters
become `\u00xx`, everything else passes through. -/
def escChar (c : Char) : List Char :=
  if c = '"' then ['\\', '"']
  else if c = '\\' then ['\\', '\\']
  else if c = '\x08' then ['\\', 'b']
  else if c = '\x0c' then ['\\', 'f']
  else if c = '\n' then ['\\', 'n']
  else if c = '\r' then ['\\', 'r']
  else if c = '\t' then ['\\', 't']
  else if c.toNat < 32 then '\\' :: 'u' :: hex4 c.toNat
  else [c]

/-- Escape a whole character list. -/
def escapeChars : List Char → List Char
  | [] => []
  | c :: cs => escChar c ++ escapeChars cs

/-- `QuoteJSONString`: the JSON string literal for `s` (double quotes around the
escaped characters). -/
def quoteJson (s : String) : String :=
  "\"" ++ String.mk (escapeChars s.data) ++ "\""

mutual
/-- `JSON.stringify(v, null, 2)` at current indentation `indent` (the gap is
two spaces; an empty array prints `[]`, an empty object prints `\x7b\x7d`,
non-empty composites put each element on its own deeper-indented line). -/
def serialize (indent : String) : Json → String
  | .null => "null"
  | .bool true => "true"
  | .bool false => "false"
  | .num n => toString n
  | .str s => quoteJson s
  | .arr [] => "[]"
  | .arr (x :: xs) =>
      let ind := indent ++ "  "
      "[\n" ++ ind ++
        String.intercalate (",\n" ++ ind) (serializeItems ind (x :: xs)) ++
        "\n" ++ indent ++ "]"
  | .obj [] => "\x7b\x7d"
  | .obj (f :: fs) =>
      let ind := indent ++ "  "
      "\x7b\n" ++ ind ++
        String.intercalate (",\n" ++ ind) (serializeFields ind (f :: fs)) ++
        "\n" ++ indent ++ "\x7d"

/-- Serialized array elements, in order. -/
def serializeItems (indent : String) : List Json → List String
  | [] => []
  | x :: xs => serialize indent x :: serializeItems indent xs

/-- Serialized object members, in order: `"key": value` (with the `": "` separator `JSON.stringify` uses for a non-empty gap). -/
def serializeFields (indent : String) : List (String × Json) → List String
  | [] => []
  | (k, v) :: fs => (quoteJson k ++ ": " ++ serialize indent v) :: serializeFields indent fs
end

/-- `formatJson` (source lines 131–137): `JSON.stringify(obj, null, 2)` starting
at zero indentation.  The `catch \x7b return String(obj) \x7d` branch fires only
for non-serializable (cyclic) values, which `Json` excludes. -/
def formatJson (obj : Json) : String :=
  serialize "" obj

/-! ## `getStatusColor` (source lines 139–144) -/

/-- `getStatusColor` (source lines 139–144): tier color for a status code.
Green is the success tier, blue the redirect tier, yellow the client-error
tier, red the server-error/default tier. -/
def getStatusColor (status : Int) : String :=
  if 200 ≤ status ∧ status < 300 then "bg-green-500"
  else if 300 ≤ status ∧ status < 400 then "bg-blue-500"
  else if 400 ≤ status ∧ status < 500 then "bg-yellow-500"
  else "bg-red-500"

/-! ## Component state and the `makeRequest` handler (source lines 22–129) -/

/-- The response body after content classification (source lines 76–87):
either a decoded JSON value (`res.json()` succeeded) or the raw text
(`res.text()`). -/
inductive BodyData where
  | json (j : Json)
  | text (s : String)

/-- The `ApiResponse` interface (source lines 14–20): `data`, `status`,
`statusText`, `headers` (flattened to ordered name/value pairs by the
`res.headers.forEach` loop at lines 89–92), `timing` in whole ms. -/
structure ApiResponse where
  data : BodyData
  status : Int
  statusText : String
  headers : List (String × String)
  timing : Int

/-- The result-related `useState` fields (source lines 27–29):
`loading`, `response`, `error`.  `none` is JS `null`. -/
structure CompState where
  loading : Bool
  response : Option ApiResponse
  error : Option String

/-- The initial state (source lines 27–29): not loading, no response, no
error. -/
def initState : CompState :=
  { loading := false, response := none, error := none }

/-- The user-editable request draft (source lines 23–26, 30): `url`, `method`,
`requestBody`, `headers` (free text intended as JSON), `useCorsProxy`. -/
structure Draft where
  url : String
  method : String
  requestBody : String
  headers : String
  useCorsProxy : Bool

/-- The `RequestInit` descriptor built at lines 59–67: `method`, the parsed
headers value, `mode` (line 62: `useCorsProxy / cors / cors` ternary, both branches `cors`, i.e. always
`"cors"`), and the optional raw-string body. -/
structure RequestOptions where
  method : String
  headers : Json
  mode : String
  body : Option String

/-- The outcome of the awaited `fetch` call: either a resolved response
(status, status text, the `content-type` header if present, the result of
attempting `res.json()` on the body — `none` if that would throw — the body as
text, and the flattened response headers), or a rejection carrying the thrown
`message` of the error (`none` when the thrown value is not an `Error`, line 111). -/
inductive TransportOutcome where
  | success (status : Int) (statusText : String) (contentType : Option String)
      (jsonBody : Option Json) (textBody : String)
      (respHeaders : List (String × String))
  | failure (errMsg : Option String)

/-- Math.round over the rationals: round half toward positive infinity,
as JS `Math.round` does. -/
def jsRound (x : ℚ) : Int :=
  ⌊x + 1 / 2⌋

/-- Submission entry (source lines 42–43): set `loading`, clear `error`.
The stored `response` is NOT cleared here. -/
def submitStep (s : CompState) : CompState :=
  { s with loading := true, error := none }

/-- Success completion (lines 94–100 and the `finally` at 127): store the new
`ApiResponse`, clear `loading`.  The `error` field is whatever submission left
(`none`). -/
def completeSuccess (s : CompState) (r : ApiResponse) : CompState :=
  { s with loading := false, response := some r }

/-- Failure completion (line 119 and the `finally` at 127): store the error
message, clear `loading`.  The stored `response` is NOT cleared. -/
def completeFailure (s : CompState) (msg : String) : CompState :=
  { s with loading := false, error := some msg }

/-- URL building (lines 55–57): prefix the fixed CORS relay when the proxy
toggle is on, else pass the URL through. -/
def buildRequestUrl (d : Draft) : String :=
  if d.useCorsProxy then "https://cors-anywhere.herokuapp.com/" ++ d.url
  else d.url

/-- Request descriptor building (lines 59–67): method and parsed headers pass
through; the body is attached exactly when the method is neither `GET` nor
`HEAD` and `requestBody.trim()` is truthy (non-empty), and is the text of the user
verbatim. -/
def buildRequestOptions (d : Draft) (parsedHeaders : Json) : RequestOptions :=
  { method := d.method
    headers := parsedHeaders
    mode := if d.useCorsProxy then "cors" else "cors"
    body :=
      if d.method ≠ "GET" ∧ d.method ≠ "HEAD" ∧ jsTrim d.requestBody ≠ "" then
        some d.requestBody
      else none }

/-- Content classification (lines 76–87): when a `content-type` header is
present and includes `application/json`, use `res.json()` and fall back to
`res.text()` if it throws; otherwise read the body as text. -/
def classifyBody (contentType : Option String) (jsonBody : Option Json)
    (textBody : String) : BodyData :=
  match contentType with
  | some ct =>
      if jsIncludes ct "application/json" then
        match jsonBody with
        | some j => BodyData.json j
        | none => BodyData.text textBody
      else BodyData.text textBody
  | none => BodyData.text textBody

/-- Failure normalization (lines 111–116): take the message of the error (or the
generic fallback when the thrown value carries none); when the message contains
`CORS` or `fetch`, wrap it with the `CORS Error:` prefix and the standardized
remediation suffix. -/
def normalizeError (errMsg : Option String) : String :=
  let errorMessage := errMsg.getD "Unknown error occurred"
  if jsIncludes errorMessage "CORS" || jsIncludes errorMessage "fetch" then
    "CORS Error: " ++ errorMessage ++
      ". Try enabling CORS proxy or configure the server to allow cross-origin requests."
  else errorMessage

/-- The remediation checklist (source lines 312–322) is rendered exactly when
the stored error message contains `CORS`. -/
def checklistShown (errorMessage : String) : Bool :=
  jsIncludes errorMessage "CORS"

/-- The outward-visible result of one `makeRequest` invocation: the component
state afterwards, the `fetch` invocation (URL and options) if one happened,
and the titles of the toasts fired. -/
structure MakeRequestResult where
  state : CompState
  transportCalled : Option (String × RequestOptions)
  toasts : List String

/-- `makeRequest` (source lines 32–129), with platform effects made explicit:
`jsonParse` is `JSON.parse` (`none` = it threw), `out` the settled `fetch`
outcome, `tStart`/`tEnd` the two `performance.now()` readings (line 44 and
line 73/108).  A blank `url` (line 33: `!url.trim()`) fires the validation
toast and returns with nothing else done.  Otherwise the state passes through
`submitStep`, the headers text is parsed with an empty-object fallback (lines
47–52), the URL and options are built, and the state completes through
`completeSuccess` (with `timing = Math.round(endTime - startTime)`) or
`completeFailure`. -/
def makeRequest (jsonParse : String → Option Json) (s : CompState) (d : Draft)
    (out : TransportOutcome) (tStart tEnd : ℚ) : MakeRequestResult :=
  if jsTrim d.url = "" then
    { state := s, transportCalled := none, toasts := ["Error"] }
  else
    let s1 := submitStep s
    let parsedHeaders := (jsonParse d.headers).getD (Json.obj [])
    let requestUrl := buildRequestUrl d
    let requestOptions := buildRequestOptions d parsedHeaders
    match out with
    | .success status statusText contentType jsonBody textBody respHeaders =>
        let timing := jsRound (tEnd - tStart)
        let responseData := classifyBody contentType jsonBody textBody
        { state := completeSuccess s1
            { data := responseData, status := status, statusText := statusText
              headers := respHeaders, timing := timing }
          transportCalled := some (requestUrl, requestOptions)
          toasts := ["Request Completed"] }
    | .failure errMsg =>
        { state := completeFailure s1 (normalizeError errMsg)
          transportCalled := some (requestUrl, requestOptions)
          toasts := ["Request Failed"] }

/-! ## The synchronous event order inside `makeRequest`

For claims about *when* the timestamps are taken, the relevant facts are the
relative order of the synchronous steps of `makeRequest`, read straight off the
source: `startTime = performance.now()` (line 44), header parsing (lines
47–52), URL building (lines 55–57), options building (lines 59–67), `await
fetch(...)` (line 72), `endTime = performance.now()` (line 73 on success, 108
on failure), then storing the result. -/

/-- One synchronous step of `makeRequest`, in source order. -/
inductive RequestEv where
  | recordStart
  | parseHeaders
  | buildUrl
  | buildOptions
  | invokeTransport
  | recordEnd
  | storeResult
deriving BEq

/-- The order of the steps of `makeRequest` as written (lines 44, 47, 55, 59,
72, 73/108, 94/119). -/
def makeRequestEventOrder : List RequestEv :=
  [.recordStart, .parseHeaders, .buildUrl, .buildOptions, .invokeTransport,
   .recordEnd, .storeResult]

/-- `immediatelyBefore a b l`: somewhere in `l`, `a` is directly followed by
`b`. -/
def immediatelyBefore (a b : RequestEv) : List RequestEv → Bool
  | [] => false
  | [_] => false
  | x :: y :: rest => (x == a && y == b) || immediatelyBefore a b (y :: rest)

end ApiTester

namespace ApiTester

/-! ## Helper lemmas -/

/-- Extending the scanned list on the right preserves `leadsWith`. -/
theorem leadsWith_append (n l1 l2 : List Char) (h : leadsWith n l1 = true) :
    leadsWith n (l1 ++ l2) = true := by
  induction n generalizing l1 with
  | nil => simp [leadsWith]
  | cons a as ih =>
    cases l1 with
    | nil => simp [leadsWith] at h
    | cons b bs =>
      simp only [List.cons_append, leadsWith, Bool.and_eq_true] at h ⊢
      exact ⟨h.1, ih bs h.2⟩

/-- A list that starts with `n` contains `n` as a contiguous run. -/
theorem listHasSub_of_leadsWith (n l : List Char) (h : leadsWith n l = true) :
    listHasSub n l = true := by
  cases l with
  | nil =>
    cases n with
    | nil => rfl
    | cons a as => simp [leadsWith] at h
  | cons c rest => simp [listHasSub, h]

/-- Every character escapes to at least one character. -/
theorem one_le_escChar_length (c : Char) : 1 ≤ (escChar c).length := by
  simp only [escChar]
  split <;> try simp
  split <;> try simp
  split <;> try simp
  split <;> try simp
  split <;> try simp
  split <;> try simp
  split <;> try simp
  split <;> simp [hex4]

/-- Escaping never shortens a character list. -/
theorem le_escapeChars_length (cs : List Char) : cs.length ≤ (escapeChars cs).length := by
  induction cs with
  | nil => simp [escapeChars]
  | cons c cs ih =>
    simp only [escapeChars, List.length_append, List.length_cons]
    have := one_le_escChar_length c
    omega

/-- A JSON string literal is at least two characters longer than the string it
quotes. -/
theorem quoteJson_length (s : String) : s.length + 2 ≤ (quoteJson s).length := by
  have hq : ("\"" : String).length = 1 := rfl
  simp only [quoteJson, String.length_append, String.length_mk, hq]
  have := le_escapeChars_length s.data
  have hd : s.length = s.data.length := rfl
  omega

/-- `formatJson` on a string value is exactly its JSON string literal. -/
theorem formatJson_str (s : String) : formatJson (Json.str s) = quoteJson s := rfl

/-- With a non-blank URL, `makeRequest` always invokes the transport, at the
built URL, with the built options. -/
theorem makeRequest_transportCalled (jsonParse : String → Option Json)
    (s : CompState) (d : Draft) (out : TransportOutcome) (tS tE : ℚ)
    (hu : jsTrim d.url ≠ "") :
    (makeRequest jsonParse s d out tS tE).transportCalled =
      some (buildRequestUrl d,
        buildRequestOptions d ((jsonParse d.headers).getD (Json.obj []))) := by
  unfold makeRequest
  rw [if_neg hu]
  cases out <;> rfl

/-! ## C1 — display-state exclusivity and transitions -/

/-- C1 counterexample: the four display states are NOT mutually exclusive as
stored.  Concretely: starting from the initial state, a submission that
succeeds (status 200) stores a `response`; a second submission that fails
(message `boom`) then stores an `error` without clearing the old `response`,
so a stored `ResponseResult` and a stored `FailureResult` are simultaneously
present. -/
theorem storedResponse_and_error_coexist :
    ((makeRequest (fun _ => none)
        (makeRequest (fun _ => none) initState
          { url := "https://a", method := "GET", requestBody := "",
            headers := "", useCorsProxy := false }
          (TransportOutcome.success 200 "OK" none none "ok" []) 0 1).state
        { url := "https://a", method := "GET", requestBody := "",
          headers := "", useCorsProxy := false }
        (TransportOutcome.failure (some "boom")) 0 1).state.response.isSome = true) ∧
    ((makeRequest (fun _ => none)
        (makeRequest (fun _ => none) initState
          { url := "https://a", method := "GET", requestBody := "",
            headers := "", useCorsProxy := false }
          (TransportOutcome.success 200 "OK" none none "ok" []) 0 1).state
        { url := "https://a", method := "GET", requestBody := "",
          headers := "", useCorsProxy := false }
        (TransportOutcome.failure (some "boom")) 0 1).state.error.isSome = true) :=
  ⟨rfl, rfl⟩

/-- C1 (amended): every submission sets the loading flag and clears the stored
error (Pending), and completion stores exactly one of a new response (success)
or an error message (failure) and clears loading — but neither submission nor a
failure clears the previously stored response, so the stored response survives
into Pending and Failed; the display states are not a mutually exclusive sum
type. -/
theorem displayState_transitions (s : CompState) (r : ApiResponse) (m : String) :
    (submitStep s).loading = true ∧ (submitStep s).error = none ∧
    (submitStep s).response = s.response ∧
    (completeSuccess (submitStep s) r).loading = false ∧
    (completeSuccess (submitStep s) r).response = some r ∧
    (completeSuccess (submitStep s) r).error = none ∧
    (completeFailure (submitStep s) m).loading = false ∧
    (completeFailure (submitStep s) m).error = some m ∧
    (completeFailure (submitStep s) m).response = s.response :=
  ⟨rfl, rfl, rfl, rfl, rfl, rfl, rfl, rfl, rfl⟩

/-! ## C2 — blank URL blocks submission -/

/-- C2: when the URL is empty or whitespace-only (`trim` gives the empty
string), `makeRequest` leaves the whole component state untouched, never
invokes the transport, and fires only the validation toast. -/
theorem blankUrl_blocks_submission (jsonParse : String → Option Json)
    (s : CompState) (d : Draft) (out : TransportOutcome) (tStart tEnd : ℚ)
    (h : jsTrim d.url = "") :
    makeRequest jsonParse s d out tStart tEnd =
      { state := s, transportCalled := none, toasts := ["Error"] } := by
  unfold makeRequest
  rw [if_pos h]

/-- Witness for C2 at a concrete whitespace-only draft and a state that
already holds an error. -/
theorem blankUrl_blocks_submission_witness :
    jsTrim "   " = "" ∧
    makeRequest (fun _ => none)
      { loading := false, response := none, error := some "old" }
      { url := "   ", method := "POST", requestBody := "b", headers := "h",
        useCorsProxy := false }
      (TransportOutcome.failure none) 0 0 =
      { state := { loading := false, response := none, error := some "old" },
        transportCalled := none, toasts := ["Error"] } :=
  ⟨by decide,
   blankUrl_blocks_submission (fun _ => none)
     { loading := false, response := none, error := some "old" }
     { url := "   ", method := "POST", requestBody := "b", headers := "h",
       useCorsProxy := false }
     (TransportOutcome.failure none) 0 0 (by decide)⟩

/-! ## C3 — timing -/

/-- C3 counterexample: the start timestamp is NOT recorded immediately before
invoking the transport — in the source order of `makeRequest`, it is
immediately followed by header parsing (then URL and option building) before
`fetch` runs, so the two timestamps bracket the request-building work as well,
not only the transport call. -/
theorem startTimestamp_not_immediately_before_transport :
    immediatelyBefore RequestEv.recordStart RequestEv.invokeTransport
      makeRequestEventOrder = false ∧
    immediatelyBefore RequestEv.recordStart RequestEv.parseHeaders
      makeRequestEventOrder = true :=
  ⟨rfl, rfl⟩

/-- C3 (amended): for every completed successful request the stored elapsed
time is the integer `Math.round(endTime - startTime)` and is ≥ 0 whenever the
clock is monotone; the end timestamp is recorded immediately after the
transport settles, but the start timestamp is recorded before header parsing
and request building, so the bracket contains more than the transport call. -/
theorem timing_nonneg_and_bracket (jsonParse : String → Option Json)
    (s : CompState) (d : Draft) (st : Int) (stx : String) (ct : Option String)
    (jb : Option Json) (tx : String) (rh : List (String × String)) (tS tE : ℚ)
    (hu : jsTrim d.url ≠ "") (hle : tS ≤ tE) :
    (∃ r, (makeRequest jsonParse s d (.success st stx ct jb tx rh) tS tE).state.response =
        some r ∧ r.timing = jsRound (tE - tS) ∧ 0 ≤ r.timing) ∧
    immediatelyBefore RequestEv.invokeTransport RequestEv.recordEnd
      makeRequestEventOrder = true ∧
    immediatelyBefore RequestEv.recordStart RequestEv.parseHeaders
      makeRequestEventOrder = true := by
  have hr : (makeRequest jsonParse s d (TransportOutcome.success st stx ct jb tx rh) tS tE).state.response =
      some (ApiResponse.mk (classifyBody ct jb tx) st stx rh (jsRound (tE - tS))) := by
    unfold makeRequest
    rw [if_neg hu]
    rfl
  refine ⟨⟨_, hr, rfl, ?_⟩, rfl, rfl⟩
  show 0 ≤ jsRound (tE - tS)
  rw [jsRound]
  apply Int.le_floor.mpr
  push_cast
  linarith

/-- Witness for C3 (amended) at a concrete request with timestamps 0 and 1. -/
theorem timing_nonneg_and_bracket_witness :
    jsTrim "https://x" ≠ "" ∧ (0 : ℚ) ≤ 1 ∧
    ((∃ r, (makeRequest (fun _ => none) initState
        { url := "https://x", method := "GET", requestBody := "",
          headers := "", useCorsProxy := false }
        (.success 200 "OK" none none "" []) 0 1).state.response =
        some r ∧ r.timing = jsRound (1 - 0) ∧ 0 ≤ r.timing) ∧
    immediatelyBefore RequestEv.invokeTransport RequestEv.recordEnd
      makeRequestEventOrder = true ∧
    immediatelyBefore RequestEv.recordStart RequestEv.parseHeaders
      makeRequestEventOrder = true) :=
  ⟨by decide, by decide,
   timing_nonneg_and_bracket (fun _ => none) initState
     { url := "https://x", method := "GET", requestBody := "",
       headers := "", useCorsProxy := false }
     200 "OK" none none "" [] 0 1 (by decide) (by decide)⟩

/-! ## C4 — `formatJson` idempotence -/

/-- C4 counterexample: the formatter is not idempotent on its own output.  At
the JSON value `null`, the first formatting gives the text `null`, but feeding
that string back through `formatJson` gives the quoted literal, a different
text. -/
theorem formatJson_not_idempotent_at_null :
    formatJson (Json.str (formatJson Json.null)) ≠ formatJson Json.null := by
  decide

/-- C4 (amended): re-formatting the output of `formatJson` never reproduces it.
Because `JSON.stringify` serializes a string argument as a JSON string literal,
applying `formatJson` to the already-formatted text always yields its quoted,
escaped form, which is strictly longer than (hence different from) the first
formatting, for every JSON value. -/
theorem formatJson_reformat (v : Json) :
    formatJson (Json.str (formatJson v)) = quoteJson (formatJson v) ∧
    formatJson (Json.str (formatJson v)) ≠ formatJson v := by
  refine ⟨rfl, ?_⟩
  rw [formatJson_str]
  intro h
  have hl := congrArg String.length h
  have := quoteJson_length (formatJson v)
  omega

/-! ## C5 — invalid headers JSON falls back silently to empty headers -/

/-- C5: when the headers text does not parse as JSON (the parse throws), the
run of `makeRequest` is indistinguishable from one whose parse succeeded with
the empty object: the transport is still invoked at the built URL, the built
options carry the empty header mapping, the body rule is unchanged, and no
extra notification fires for this condition. -/
theorem invalidHeaders_silent_empty_fallback (jsonParse : String → Option Json)
    (s : CompState) (d : Draft) (out : TransportOutcome) (tS tE : ℚ)
    (hu : jsTrim d.url ≠ "") (hp : jsonParse d.headers = none) :
    makeRequest jsonParse s d out tS tE =
      makeRequest (fun _ => some (Json.obj [])) s d out tS tE ∧
    ∃ opts : RequestOptions,
      (makeRequest jsonParse s d out tS tE).transportCalled =
        some (buildRequestUrl d, opts) ∧
      opts.headers = Json.obj [] ∧
      (opts.body = some d.requestBody ↔
        (d.method ≠ "GET" ∧ d.method ≠ "HEAD" ∧ jsTrim d.requestBody ≠ "")) := by
  constructor
  · unfold makeRequest
    rw [if_neg hu, if_neg hu]
    simp [hp]
  · refine ⟨buildRequestOptions d ((jsonParse d.headers).getD (Json.obj [])),
      makeRequest_transportCalled jsonParse s d out tS tE hu,
      by simp [hp, buildRequestOptions], ?_⟩
    by_cases hc : d.method ≠ "GET" ∧ d.method ≠ "HEAD" ∧ jsTrim d.requestBody ≠ ""
    · simp [buildRequestOptions, hc]
    · simp [buildRequestOptions, hc]

/-- Witness for C5: a POST with malformed headers text `not-json` still sends,
with empty headers and the body `hello` attached. -/
theorem invalidHeaders_silent_empty_fallback_witness :
    jsTrim "https://x" ≠ "" ∧ (fun _ : String => (none : Option Json)) "not-json" = none ∧
    (makeRequest (fun _ => none) initState
      { url := "https://x", method := "POST", requestBody := "hello",
        headers := "not-json", useCorsProxy := false }
      (TransportOutcome.success 201 "Created" none none "" []) 0 1 =
     makeRequest (fun _ => some (Json.obj [])) initState
      { url := "https://x", method := "POST", requestBody := "hello",
        headers := "not-json", useCorsProxy := false }
      (TransportOutcome.success 201 "Created" none none "" []) 0 1 ∧
    ∃ opts : RequestOptions,
      (makeRequest (fun _ => none) initState
        { url := "https://x", method := "POST", requestBody := "hello",
          headers := "not-json", useCorsProxy := false }
        (TransportOutcome.success 201 "Created" none none "" []) 0 1).transportCalled =
        some (buildRequestUrl
          { url := "https://x", method := "POST", requestBody := "hello",
            headers := "not-json", useCorsProxy := false }, opts) ∧
      opts.headers = Json.obj [] ∧
      (opts.body = some "hello" ↔
        ("POST" ≠ "GET" ∧ "POST" ≠ "HEAD" ∧ jsTrim "hello" ≠ ""))) :=
  ⟨by decide, rfl,
   invalidHeaders_silent_empty_fallback (fun _ => none) initState
     { url := "https://x", method := "POST", requestBody := "hello",
       headers := "not-json", useCorsProxy := false }
     (TransportOutcome.success 201 "Created" none none "" []) 0 1 (by decide) rfl⟩

/-! ## C6 — body attachment rule -/

/-- C6: with a non-blank URL, the outgoing request carries a body exactly when
the method is neither `GET` nor `HEAD` and the body text is non-blank, the
body sent is the user text verbatim, and for `HEAD` no body is ever attached. -/
theorem body_attachment_rule (jsonParse : String → Option Json) (s : CompState)
    (d : Draft) (out : TransportOutcome) (tStart tEnd : ℚ)
    (h : jsTrim d.url ≠ "") :
    ∃ opts : RequestOptions,
      (makeRequest jsonParse s d out tStart tEnd).transportCalled =
        some (buildRequestUrl d, opts) ∧
      opts.method = d.method ∧
      (opts.body = some d.requestBody ↔
        (d.method ≠ "GET" ∧ d.method ≠ "HEAD" ∧ jsTrim d.requestBody ≠ "")) ∧
      (d.method = "HEAD" → opts.body = none) ∧
      (opts.body = none ∨ opts.body = some d.requestBody) := by
  refine ⟨buildRequestOptions d ((jsonParse d.headers).getD (Json.obj [])),
    makeRequest_transportCalled jsonParse s d out tStart tEnd h, rfl, ?_, ?_, ?_⟩
  · by_cases hc : d.method ≠ "GET" ∧ d.method ≠ "HEAD" ∧ jsTrim d.requestBody ≠ ""
    · simp only [buildRequestOptions, hc, if_pos]
      simp [hc]
    · rw [buildRequestOptions]
      simp only [iff_iff_implies_and_implies]
      constructor
      · intro hx
        rw [if_neg hc] at hx
        simp at hx
      · intro hx
        exact absurd hx hc
  · intro hhead
    have hx : ¬(d.method ≠ "GET" ∧ d.method ≠ "HEAD" ∧ jsTrim d.requestBody ≠ "") :=
      fun hx => hx.2.1 hhead
    simp [buildRequestOptions, hx]
  · by_cases hc : d.method ≠ "GET" ∧ d.method ≠ "HEAD" ∧ jsTrim d.requestBody ≠ ""
    · right
      rw [buildRequestOptions]
      simp only [if_pos hc]
    · left
      rw [buildRequestOptions]
      simp only [if_neg hc]

/-- Witness for C6: a `HEAD` draft with non-blank body text sends no body. -/
theorem body_attachment_rule_witness :
    jsTrim "https://x" ≠ "" ∧
    (∃ opts : RequestOptions,
      (makeRequest (fun _ => none) initState
        { url := "https://x", method := "HEAD", requestBody := "ignored",
          headers := "h", useCorsProxy := false }
        (TransportOutcome.failure none) 0 0).transportCalled =
        some (buildRequestUrl
          { url := "https://x", method := "HEAD", requestBody := "ignored",
            headers := "h", useCorsProxy := false }, opts) ∧
      opts.method = "HEAD" ∧
      (opts.body = some "ignored" ↔
        ("HEAD" ≠ "GET" ∧ "HEAD" ≠ "HEAD" ∧ jsTrim "ignored" ≠ "")) ∧
      ("HEAD" = "HEAD" → opts.body = none) ∧
      (opts.body = none ∨ opts.body = some "ignored")) :=
  ⟨by decide,
   body_attachment_rule (fun _ => none) initState
     { url := "https://x", method := "HEAD", requestBody := "ignored",
       headers := "h", useCorsProxy := false }
     (TransportOutcome.failure none) 0 0 (by decide)⟩

/-! ## C7 — status tier classification -/

/-- C7: `getStatusColor` maps [200,300) to the success tier (green), [300,400)
to the redirect tier (blue), [400,500) to the client-error tier (yellow), and
every other integer code — below 200 or at/above 500, including 500 and 999 —
to the server-error/default tier (red); in particular 200, 301, 404, 500, 999
land on green, blue, yellow, red, red. -/
theorem statusColor_tiers (status : Int) :
    ((200 ≤ status ∧ status < 300) → getStatusColor status = "bg-green-500") ∧
    ((300 ≤ status ∧ status < 400) → getStatusColor status = "bg-blue-500") ∧
    ((400 ≤ status ∧ status < 500) → getStatusColor status = "bg-yellow-500") ∧
    ((status < 200 ∨ 500 ≤ status) → getStatusColor status = "bg-red-500") ∧
    getStatusColor 200 = "bg-green-500" ∧ getStatusColor 301 = "bg-blue-500" ∧
    getStatusColor 404 = "bg-yellow-500" ∧ getStatusColor 500 = "bg-red-500" ∧
    getStatusColor 999 = "bg-red-500" := by
  unfold getStatusColor
  refine ⟨fun h => ?_, fun h => ?_, fun h => ?_, fun h => ?_,
    by decide, by decide, by decide, by decide, by decide⟩
  · rw [if_pos h]
  · rw [if_neg (by omega), if_pos h]
  · rw [if_neg (by omega), if_neg (by omega), if_pos h]
  · rw [if_neg (by omega), if_neg (by omega), if_neg (by omega)]

/-- Witness for C7 at codes 250, 350, 450 and 100. -/
theorem statusColor_tiers_witness :
    getStatusColor 250 = "bg-green-500" ∧ getStatusColor 350 = "bg-blue-500" ∧
    getStatusColor 450 = "bg-yellow-500" ∧ getStatusColor 100 = "bg-red-500" :=
  ⟨(statusColor_tiers 250).1 (by decide),
   (statusColor_tiers 350).2.1 (by decide),
   (statusColor_tiers 450).2.2.1 (by decide),
   (statusColor_tiers 100).2.2.2.1 (Or.inl (by decide))⟩

/-! ## C8 — CORS/fetch error augmentation -/

/-- C8: for a transport error whose message contains `CORS` or `fetch` (such
as `Failed to fetch`), the normalized failure message is the original text
wrapped with the `CORS Error:` prefix and the standardized remediation suffix,
and — since that message contains `CORS` — the remediation checklist is
rendered; an error carrying no message gets the generic fallback string. -/
theorem corsError_message_augmentation (m : String)
    (h : jsIncludes m "CORS" = true ∨ jsIncludes m "fetch" = true) :
    normalizeError (some m) =
      "CORS Error: " ++ m ++
        ". Try enabling CORS proxy or configure the server to allow cross-origin requests." ∧
    checklistShown (normalizeError (some m)) = true ∧
    normalizeError none = "Unknown error occurred" := by
  have he : normalizeError (some m) =
      "CORS Error: " ++ m ++
        ". Try enabling CORS proxy or configure the server to allow cross-origin requests." := by
    rcases h with h | h <;> simp [normalizeError, h]
  refine ⟨he, ?_, rfl⟩
  rw [he, checklistShown]
  unfold jsIncludes
  rw [String.data_append, String.data_append, List.append_assoc]
  apply listHasSub_of_leadsWith
  apply leadsWith_append
  decide

/-- Witness for C8 at the message `Failed to fetch`. -/
theorem corsError_message_augmentation_witness :
    jsIncludes "Failed to fetch" "fetch" = true ∧
    (normalizeError (some "Failed to fetch") =
      "CORS Error: Failed to fetch. Try enabling CORS proxy or configure the server to allow cross-origin requests." ∧
    checklistShown (normalizeError (some "Failed to fetch")) = true ∧
    normalizeError none = "Unknown error occurred") := by
  refine ⟨by decide, ?_⟩
  have h := corsError_message_augmentation "Failed to fetch" (Or.inr (by decide))
  simpa using h

/-! ## C9 — content-type driven body decoding -/

/-- C9: the body is decoded as JSON exactly when the declared content type
exists, contains `application/json`, and the JSON decode succeeds; when the
decode fails, or the content type is absent or non-JSON, the body is read as
plain text — and a success outcome never sets the error field, it always
stores a response whose data is this classification. -/
theorem content_classification (ct : Option String) (jb : Option Json) (tx : String) :
    (∀ j, classifyBody ct jb tx = BodyData.json j ↔
        ((∃ c, ct = some c ∧ jsIncludes c "application/json" = true) ∧ jb = some j)) ∧
    (((¬ ∃ c, ct = some c ∧ jsIncludes c "application/json" = true) ∨ jb = none) →
        classifyBody ct jb tx = BodyData.text tx) ∧
    (∀ (jsonParse : String → Option Json) (s : CompState) (d : Draft)
        (st : Int) (stx : String) (rh : List (String × String)) (tS tE : ℚ),
        jsTrim d.url ≠ "" →
        (makeRequest jsonParse s d (.success st stx ct jb tx rh) tS tE).state.error = none ∧
        ∃ r, (makeRequest jsonParse s d (.success st stx ct jb tx rh) tS tE).state.response = some r ∧
          r.data = classifyBody ct jb tx) := by
  refine ⟨?_, ?_, ?_⟩
  · intro j
    cases ct with
    | none => simp [classifyBody]
    | some c =>
      by_cases hj : jsIncludes c "application/json" = true
      · cases jb with
        | none => simp [classifyBody, hj]
        | some j' => simp [classifyBody, hj]
      · cases jb with
        | none => simp [classifyBody, hj]
        | some j' => simp [classifyBody, hj]
  · intro h
    rcases h with h | h
    · cases ct with
      | none => simp [classifyBody]
      | some c =>
        have hj : ¬ jsIncludes c "application/json" = true := fun hx => h ⟨c, rfl, hx⟩
        simp [classifyBody, hj]
    · subst h
      cases ct with
      | none => simp [classifyBody]
      | some c => by_cases hj : jsIncludes c "application/json" = true <;> simp [classifyBody, hj]
  · intro jsonParse s d st stx rh tS tE hu
    unfold makeRequest
    rw [if_neg hu]
    exact ⟨rfl, _, rfl, rfl⟩

/-- Witness for C9: JSON content type with a successful decode yields the JSON
value; a failed decode, a text content type, and a missing content type each
yield the plain text. -/
theorem content_classification_witness :
    (classifyBody (some "application/json; charset=utf-8") (some (Json.num 1)) "1" =
        BodyData.json (Json.num 1)) ∧
    (classifyBody (some "application/json") none "oops" = BodyData.text "oops") ∧
    (classifyBody (some "text/html") (some (Json.num 1)) "<p>" = BodyData.text "<p>") ∧
    (classifyBody none (some (Json.num 1)) "raw" = BodyData.text "raw") :=
  ⟨((content_classification (some "application/json; charset=utf-8") (some (Json.num 1)) "1").1
      (Json.num 1)).mpr ⟨⟨_, rfl, by decide⟩, rfl⟩,
   (content_classification (some "application/json") none "oops").2.1 (Or.inr rfl),
   (content_classification (some "text/html") (some (Json.num 1)) "<p>").2.1
     (Or.inl (by
        rintro ⟨c, hc, hinc⟩
        cases hc
        exact absurd hinc (by decide))),
   (content_classification none (some (Json.num 1)) "raw").2.1 (Or.inl (by
        rintro ⟨c, hc, hinc⟩
        cases hc))⟩

/-! ## C10 — non-object parsed headers pass through -/

/-- C10: whenever the headers text parses as any JSON value — object or not —
that value is passed through as the `headers` of the built request; the
empty-mapping fallback is exclusive to a parse exception, and nothing checks
that the parsed value is an object. -/
theorem nonObject_headers_passthrough (jsonParse : String → Option Json)
    (s : CompState) (d : Draft) (out : TransportOutcome) (tS tE : ℚ) (v : Json)
    (hu : jsTrim d.url ≠ "") (hp : jsonParse d.headers = some v) :
    (makeRequest jsonParse s d out tS tE).transportCalled =
      some (buildRequestUrl d, buildRequestOptions d v) ∧
    (buildRequestOptions d v).headers = v := by
  refine ⟨?_, rfl⟩
  rw [makeRequest_transportCalled jsonParse s d out tS tE hu, hp]
  rfl

/-- Witness for C10 where the headers text parses as the (non-object) empty
array. -/
theorem nonObject_headers_passthrough_witness :
    jsTrim "https://x" ≠ "" ∧
    (fun _ : String => some (Json.arr [])) "[1]" = some (Json.arr []) ∧
    ((makeRequest (fun _ => some (Json.arr [])) initState
      { url := "https://x", method := "GET", requestBody := "",
        headers := "[1]", useCorsProxy := false }
      (TransportOutcome.failure none) 0 0).transportCalled =
      some (buildRequestUrl
        { url := "https://x", method := "GET", requestBody := "",
          headers := "[1]", useCorsProxy := false },
        buildRequestOptions
          { url := "https://x", method := "GET", requestBody := "",
            headers := "[1]", useCorsProxy := false } (Json.arr [])) ∧
    (buildRequestOptions
        { url := "https://x", method := "GET", requestBody := "",
          headers := "[1]", useCorsProxy := false } (Json.arr [])).headers =
      Json.arr []) :=
  ⟨by decide, rfl,
   nonObject_headers_passthrough (fun _ => some (Json.arr [])) initState
     { url := "https://x", method := "GET", requestBody := "",
       headers := "[1]", useCorsProxy := false }
     (TransportOutcome.failure none) 0 0 (Json.arr []) (by decide) rfl⟩

end ApiTester
